import Mathlib

/-!
Shallow embedding of `src/FwXG/sophoslib.py` (class `sophosxg`): the XML
request builder (`__init__`, `make_xml`, the `set_/get_/del_` entity-body
builders) and the response interpreter (`send`, lines 695-710).
XML elements are modelled as an ordered tree with a tag, optional text and
an ordered child list, matching `xml.etree.ElementTree`; the parsed
response dict produced by `xmltodict.parse` is modelled as a string/object
tree with ordered unique keys.
-/

namespace Sophos

/-- An `xml.etree.ElementTree` element: tag, optional text, ordered children. -/
inductive XML where
  | elem : String → Option String → List XML → XML

mutual

/-- Decidable structural equality on elements. -/
def XML.decEq : (a b : XML) → Decidable (a = b)
  | XML.elem t1 x1 c1, XML.elem t2 x2 c2 =>
    if h1 : t1 = t2 then
      if h2 : x1 = x2 then
        match XML.decEqL c1 c2 with
        | isFalse h => isFalse (fun hh => by injection hh; contradiction)
        | isTrue h3 => isTrue (by rw [h1, h2, h3])
      else isFalse (fun hh => by injection hh; contradiction)
    else isFalse (fun hh => by injection hh; contradiction)

/-- Decidable structural equality on forests. -/
def XML.decEqL : (as bs : List XML) → Decidable (as = bs)
  | [], [] => isTrue rfl
  | [], _ :: _ => isFalse (fun hh => by injection hh)
  | _ :: _, [] => isFalse (fun hh => by injection hh)
  | a :: as, b :: bs =>
    match XML.decEq a b with
    | isFalse h => isFalse (fun hh => by injection hh; contradiction)
    | isTrue h1 =>
      match XML.decEqL as bs with
      | isFalse h => isFalse (fun hh => by injection hh; contradiction)
      | isTrue h2 => isTrue (by rw [h1, h2])

end

instance : DecidableEq XML := XML.decEq

/-- Tag of an element. -/
def XML.tag : XML → String
  | XML.elem t _ _ => t

/-- Text of an element (`None` when never assigned, as in ElementTree). -/
def XML.text : XML → Option String
  | XML.elem _ x _ => x

/-- Children of an element, in insertion order. -/
def XML.children : XML → List XML
  | XML.elem _ _ cs => cs

mutual

/-- Number of elements with the given tag in the whole tree. -/
def countTagDeep (t : String) : XML → Nat
  | XML.elem tg _ cs => (if tg = t then 1 else 0) + countTagDeepL t cs

/-- Number of elements with the given tag in a forest. -/
def countTagDeepL (t : String) : List XML → Nat
  | [] => 0
  | x :: xs => countTagDeep t x + countTagDeepL t xs

end

/-- `ET.SubElement(root, ...)`: append a child to the root element. -/
def appendChildRoot (x : XML) (c : XML) : XML :=
  match x with
  | XML.elem t tx cs => XML.elem t tx (cs ++ [c])

/-- The `Login` subtree built in `sophosxg.__init__` (lines 76-78):
`Login` with `Username` and `Password` children carrying the credentials. -/
def loginBlock (username password : String) : XML :=
  XML.elem "Login" none
    [XML.elem "Username" (some username) [],
     XML.elem "Password" (some password) []]

/-- `self.xml_auth` as built in `sophosxg.__init__` (lines 75-78):
a `Request` root whose single child is the `Login` block. -/
def xmlAuth (username password : String) : XML :=
  XML.elem "Request" none [loginBlock username password]

/-- `sophosxg.make_xml` (lines 687-693) on the document tree: deep-copy the
authentication template (value copy here) and append
`<method><module>…body…</module></method>`; `body` is what the calling
`set_/get_/del_` method appends to the returned `xml_child`. -/
def make_xml_tree (auth : XML) (method module : String) (body : List XML) : XML :=
  appendChildRoot auth (XML.elem method none [XML.elem module none body])

/-- `https://{ip}:{port}/webconsole/APIController?reqxml=` (lines 73-74). -/
def apiurl_of (ip port : String) : String :=
  "https://" ++ ip ++ ":" ++ port ++ "/webconsole/APIController?reqxml="

/-- The attribute state of a `sophosxg` instance. `username`, `password`,
`apiurl` and `xml_auth` are assigned in `__init__`; `method`, `module` and
`xml_request` do not exist until the first `make_xml` call, hence `Option`. -/
structure SophosState where
  username : String
  password : String
  apiurl : String
  xml_auth : XML
  method : Option String
  module : Option String
  xml_request : Option XML
deriving DecidableEq

/-- `sophosxg.__init__(username, password, ip, port)` (lines 70-78). -/
def sophosxg_init (username password ip port : String) : SophosState :=
  { username := username, password := password, apiurl := apiurl_of ip port,
    xml_auth := xmlAuth username password,
    method := none, module := none, xml_request := none }

/-- The state effect of `make_xml` (lines 687-693) together with the body
elements the calling method appends to the returned `xml_child`: overwrites
`self.method`, `self.module` and `self.xml_request`, leaving the other
attributes untouched. -/
def make_xml_state (s : SophosState) (method module : String) (body : List XML) : SophosState :=
  { s with method := some method, module := some module,
           xml_request := some (make_xml_tree s.xml_auth method module body) }

/-- Entity body built by `set_iphost` (lines 204-219): `Name`, `IPFamily`,
`HostType`, then the branch selected by `hosttype`. -/
def set_iphost_body (name ipaddress subnet hosttype ipfamily : String) : List XML :=
  [XML.elem "Name" (some name) [],
   XML.elem "IPFamily" (some ipfamily) [],
   XML.elem "HostType" (some hosttype) []]
  ++ (if hosttype = "IP" then
        [XML.elem "IPAddress" (some ipaddress) []]
      else if hosttype = "Network" then
        [XML.elem "IPAddress" (some ipaddress) [],
         XML.elem "Subnet" (some subnet) []]
      else if hosttype = "IPRange" then
        [XML.elem "StartIPAddress" (some ipaddress) [],
         XML.elem "EndIPAddress" (some subnet) []]
      else if hosttype = "IPList" then
        [XML.elem "ListOfIPAddresses" (some ipaddress) []]
      else [])

/-- Entity body built by `set_iphostgroup` (lines 250-256): `Name`, `IPFamily`,
`Description`, then a `HostList` wrapper with one `Host` child per list item. -/
def set_iphostgroup_body (name : String) (hosts : List String)
    (description ipfamily : String) : List XML :=
  [XML.elem "Name" (some name) [],
   XML.elem "IPFamily" (some ipfamily) [],
   XML.elem "Description" (some description) [],
   XML.elem "HostList" none (hosts.map (fun h => XML.elem "Host" (some h) []))]

/-- Entity body built by `set_network_bridge` (lines 447-471). `interfaces`
is the Python dict in insertion order. The IPv4 block is guarded by
`if ipaddress and netmask and gw`, string truthiness being non-emptiness. -/
def set_network_bridge_body (name : String) (interfaces : List (String × String))
    (ipaddress netmask gw routingonbridge ipassignment ipv4configuration mtu : String) :
    List XML :=
  [XML.elem "Name" (some name) [],
   XML.elem "Hardware" (some name) [],
   XML.elem "Description" (some (toString interfaces.length ++ " Bridges")) [],
   XML.elem "RoutingOnBridgePair" (some routingonbridge) [],
   XML.elem "BridgeMembers" none
     (interfaces.map (fun p =>
       XML.elem "Member" none
         [XML.elem "Interface" (some p.1) [],
          XML.elem "Zone" (some p.2) []]))]
  ++ (if ipaddress ≠ "" ∧ netmask ≠ "" ∧ gw ≠ "" then
        [XML.elem "IPv4Configuration" (some ipv4configuration) [],
         XML.elem "IPv4Assignment" (some ipassignment) [],
         XML.elem "IPAddress" (some ipaddress) [],
         XML.elem "Netmask" (some netmask) [],
         XML.elem "Gateway" none
           [XML.elem "GatewayName" (some ("GW for " ++ name)) [],
            XML.elem "GatewayIPAddress" (some gw) []]]
      else [])
  ++ [XML.elem "MTU" (some mtu) []]

/-- `get_iphost` (lines 96-98), state effect of its `make_xml` call. -/
def get_iphost_call (s : SophosState) : SophosState :=
  make_xml_state s "Get" "IPHost" []

/-- `set_iphost` (lines 159-222), state effect up to `send`. -/
def set_iphost_call (s : SophosState)
    (name ipaddress subnet hosttype ipfamily : String) : SophosState :=
  make_xml_state s "Set" "IPHost" (set_iphost_body name ipaddress subnet hosttype ipfamily)

/-- `set_iphostgroup` (lines 224-259), state effect up to `send`. -/
def set_iphostgroup_call (s : SophosState) (name : String) (hosts : List String)
    (description ipfamily : String) : SophosState :=
  make_xml_state s "Set" "IPHostGroup" (set_iphostgroup_body name hosts description ipfamily)

/-- `set_network_bridge` (lines 392-477), state effect up to `send`. -/
def set_network_bridge_call (s : SophosState) (name : String)
    (interfaces : List (String × String))
    (ipaddress netmask gw routingonbridge ipassignment ipv4configuration mtu : String) :
    SophosState :=
  make_xml_state s "Set" "BridgePair"
    (set_network_bridge_body name interfaces ipaddress netmask gw
      routingonbridge ipassignment ipv4configuration mtu)

/-- `del_iphost` (lines 644-647), state effect up to `send`. -/
def del_iphost_call (s : SophosState) (name : String) : SophosState :=
  make_xml_state s "Remove" "IPHost" [XML.elem "Name" (some name) []]

/-- Value in the nested mapping produced by
`loads(dumps(xmltodict.parse(response.content)))` (line 700): a string leaf
or an object with ordered, unique string keys. -/
inductive DVal where
  | str : String → DVal
  | obj : List (String × DVal) → DVal

mutual

/-- Decidable structural equality on parsed-response values. -/
def DVal.decEq : (a b : DVal) → Decidable (a = b)
  | DVal.str a, DVal.str b =>
    if h : a = b then isTrue (by rw [h])
    else isFalse (fun hh => by injection hh; contradiction)
  | DVal.str _, DVal.obj _ => isFalse (fun hh => by injection hh)
  | DVal.obj _, DVal.str _ => isFalse (fun hh => by injection hh)
  | DVal.obj fs, DVal.obj gs =>
    match DVal.decEqL fs gs with
    | isFalse h => isFalse (fun hh => by injection hh; contradiction)
    | isTrue h => isTrue (by rw [h])

/-- Decidable structural equality on field lists. -/
def DVal.decEqL : (fs gs : List (String × DVal)) → Decidable (fs = gs)
  | [], [] => isTrue rfl
  | [], _ :: _ => isFalse (fun hh => by injection hh)
  | _ :: _, [] => isFalse (fun hh => by injection hh)
  | (k1, v1) :: fs, (k2, v2) :: gs =>
    if hk : k1 = k2 then
      match DVal.decEq v1 v2 with
      | isFalse h => isFalse (fun hh => by
          injection hh with h1 h2
          exact h (congrArg Prod.snd h1))
      | isTrue hv =>
        match DVal.decEqL fs gs with
        | isFalse h => isFalse (fun hh => by injection hh; contradiction)
        | isTrue ht => isTrue (by rw [hk, hv, ht])
    else isFalse (fun hh => by
      injection hh with h1 h2
      exact hk (congrArg Prod.fst h1))

end

instance : DecidableEq DVal := DVal.decEq

/-- Python `d[key]` on a parsed object: first (unique) matching key. -/
def lookupStr : List (String × DVal) → String → Option DVal
  | [], _ => none
  | (k, v) :: rest, key => if k = key then some v else lookupStr rest key

/-- Indexing a parsed value: `none` models a Python `KeyError`/`TypeError`. -/
def DVal.get? : DVal → String → Option DVal
  | DVal.str _, _ => none
  | DVal.obj fields, key => lookupStr fields key

/-- Chained indexing `d[k1][k2]…` on the parsed response. -/
def getPath (d : DVal) : List String → Option DVal
  | [] => some d
  | k :: ks =>
    match d.get? k with
    | none => none
    | some v => getPath v ks

/-- Failure outcomes of `send` (lines 702-708). The source raises the
generic `Exception` everywhere; constructors here are keyed by which raise
site fired and what payload the `Exception` carries: line 703 carries the
login status value, line 707 carries the code/text pair. `keyError` and
`typeError` model the interpreter-level errors Python raises on a missing
key or a non-string concatenation operand. -/
inductive SendError where
  | authenticationError : DVal → SendError
  | operationError : DVal → DVal → SendError
  | keyError : SendError
  | typeError : SendError
deriving DecidableEq

/-- Successful outcomes of `send` (line 710): the whole parsed response
dict for `Get`, or the `code + ' ' + text` string for `Set`/`Remove`. -/
inductive SendResult where
  | dict : DVal → SendResult
  | msg : String → SendResult
deriving DecidableEq

instance {ε α : Type} [DecidableEq ε] [DecidableEq α] : DecidableEq (Except ε α) := fun x y =>
  match x, y with
  | Except.ok a, Except.ok b =>
    match decEq a b with
    | isTrue h => isTrue (by rw [h])
    | isFalse h => isFalse (fun hh => by injection hh; contradiction)
  | Except.error a, Except.error b =>
    match decEq a b with
    | isTrue h => isTrue (by rw [h])
    | isFalse h => isFalse (fun hh => by injection hh; contradiction)
  | Except.ok _, Except.error _ => isFalse (fun hh => by injection hh)
  | Except.error _, Except.ok _ => isFalse (fun hh => by injection hh)

/-- Response interpretation in `sophosxg.send` (lines 702-710), given
`self.method`, `self.module` and the parsed `response_dict`. Mirrors the
source's evaluation order: the `Login.status` check runs first and
unconditionally; the `Status` code is only consulted for `Remove`/`Set`;
`Get` returns the entire `response_dict`. -/
def send_interpret (method module : String) (rd : DVal) : Except SendError SendResult :=
  match getPath rd ["Response", "Login", "status"] with
  | none => Except.error SendError.keyError
  | some st =>
    if st = DVal.str "Authentication Successful" then
      if method = "Remove" ∨ method = "Set" then
        match getPath rd ["Response", module, "Status", "@code"] with
        | none => Except.error SendError.keyError
        | some code =>
          if code = DVal.str "200" then
            match code, getPath rd ["Response", module, "Status", "#text"] with
            | DVal.str c, some (DVal.str t) => Except.ok (SendResult.msg (c ++ " " ++ t))
            | _, none => Except.error SendError.keyError
            | _, some _ => Except.error SendError.typeError
          else
            match getPath rd ["Response", module, "Status", "#text"] with
            | none => Except.error SendError.keyError
            | some text => Except.error (SendError.operationError code text)
      else
        Except.ok (SendResult.dict rd)
    else
      Except.error (SendError.authenticationError st)

/-- A concrete session state, for witnesses: `sophosxg('apiadmin','pw')`
with the default address and port. -/
def initState : SophosState :=
  sophosxg_init "apiadmin" "pw" "172.16.16.16" "4444"

/-- A concrete entity payload under `Response.IPHost` in a reply. -/
def iphostPayload : DVal :=
  DVal.obj [("Status", DVal.obj
    [("@code", DVal.str "200"),
     ("#text", DVal.str "Configuration applied successfully.")])]

/-- A concrete parsed reply: authentication succeeded, status code 200. -/
def rdGood : DVal :=
  DVal.obj [("Response", DVal.obj
    [("Login", DVal.obj [("status", DVal.str "Authentication Successful")]),
     ("IPHost", iphostPayload)])]

/-- A concrete parsed reply whose authentication failed. -/
def rdBad : DVal :=
  DVal.obj [("Response", DVal.obj
    [("Login", DVal.obj [("status", DVal.str "Authentication Failure")])])]

/-- The tags that can appear in a conditional branch of `set_iphost`. -/
def conditionalTags : List String :=
  ["IPAddress", "Subnet", "StartIPAddress", "EndIPAddress", "ListOfIPAddresses"]

/-- The conditional elements `set_iphost` emits for each declared
discriminator value of `hosttype` (lines 210-219). -/
def branchTags : String → List String
  | "IP" => ["IPAddress"]
  | "Network" => ["IPAddress", "Subnet"]
  | "IPRange" => ["StartIPAddress", "EndIPAddress"]
  | "IPList" => ["ListOfIPAddresses"]
  | _ => []

/-- The tags of the conditional IPv4 configuration block of
`set_network_bridge` (lines 461-469). -/
def ipv4BlockTags : List String :=
  ["IPv4Configuration", "IPv4Assignment", "IPAddress", "Netmask", "Gateway"]

/-- C1: for every operation kind and entity type, the built request document
has the `Login` block (with the session's username and password) as first
child of the `Request` root, followed by exactly one operation element
wrapping exactly one entity body, and `Login` occurs exactly once in the
whole document. -/
theorem request_login_first (u p method module : String) (body : List XML)
    (hmethod : method = "Get" ∨ method = "Set" ∨ method = "Remove")
    (hmodule : module ≠ "Login")
    (hbody : countTagDeepL "Login" body = 0) :
    (make_xml_tree (xmlAuth u p) method module body).children
        = [loginBlock u p, XML.elem method none [XML.elem module none body]]
    ∧ countTagDeep "Login" (make_xml_tree (xmlAuth u p) method module body) = 1 := by
  constructor
  · rfl
  · have hm : method ≠ "Login" := by
      rcases hmethod with h | h | h <;> subst h <;> decide
    simp [make_xml_tree, xmlAuth, appendChildRoot, loginBlock,
      countTagDeep, countTagDeepL, hm, hmodule, hbody]

/-- C1 witness at a concrete Set/IPHost request. -/
theorem request_login_first_witness :
    (make_xml_tree (xmlAuth "apiadmin" "pw") "Set" "IPHost"
        (set_iphost_body "SYNCORP1" "5.5.5.5" "" "IP" "IPv4")).children
        = [loginBlock "apiadmin" "pw",
           XML.elem "Set" none [XML.elem "IPHost" none
             (set_iphost_body "SYNCORP1" "5.5.5.5" "" "IP" "IPv4")]]
    ∧ countTagDeep "Login" (make_xml_tree (xmlAuth "apiadmin" "pw") "Set" "IPHost"
        (set_iphost_body "SYNCORP1" "5.5.5.5" "" "IP" "IPv4")) = 1 :=
  request_login_first "apiadmin" "pw" "Set" "IPHost"
    (set_iphost_body "SYNCORP1" "5.5.5.5" "" "IP" "IPv4")
    (Or.inr (Or.inl rfl)) (by decide) (by decide)

/-- C2: whenever the parsed reply's `Login.status` is not exactly
"Authentication Successful", `send` raises the authentication failure
carrying that status text, whatever the operation kind and whatever the
entity-level `Status` contains. -/
theorem send_auth_checked_first (method module : String) (rd : DVal) (s : String)
    (hst : getPath rd ["Response", "Login", "status"] = some (DVal.str s))
    (hne : s ≠ "Authentication Successful") :
    send_interpret method module rd
      = Except.error (SendError.authenticationError (DVal.str s)) := by
  unfold send_interpret
  rw [hst]
  simp [hne]

/-- C2 witness at a concrete failed-authentication reply. -/
theorem send_auth_checked_first_witness :
    send_interpret "Set" "IPHost" rdBad
      = Except.error (SendError.authenticationError (DVal.str "Authentication Failure")) :=
  send_auth_checked_first "Set" "IPHost" rdBad "Authentication Failure"
    (by decide) (by decide)

/-- C3: for a Set or Remove reply whose authentication succeeded, status
code "200" yields success carrying the code and the appliance's message
unchanged (joined as `code + ' ' + message`), and any other code raises the
operation failure carrying the code and message verbatim. -/
theorem send_mutate_delete_status (method module : String) (rd : DVal) (c t : String)
    (hm : method = "Remove" ∨ method = "Set")
    (hauth : getPath rd ["Response", "Login", "status"]
        = some (DVal.str "Authentication Successful"))
    (hcode : getPath rd ["Response", module, "Status", "@code"] = some (DVal.str c))
    (htext : getPath rd ["Response", module, "Status", "#text"] = some (DVal.str t)) :
    (c = "200" →
      send_interpret method module rd = Except.ok (SendResult.msg (c ++ " " ++ t)))
    ∧ (c ≠ "200" →
      send_interpret method module rd
        = Except.error (SendError.operationError (DVal.str c) (DVal.str t))) := by
  constructor
  · intro h200
    subst h200
    unfold send_interpret
    rw [hauth]
    simp [hm, hcode, htext]
  · intro hne
    unfold send_interpret
    rw [hauth]
    simp [hm, hcode, htext, hne]

/-- C3 witness: success case at a concrete code-200 Set reply. -/
theorem send_mutate_delete_status_witness :
    send_interpret "Set" "IPHost" rdGood
      = Except.ok (SendResult.msg "200 Configuration applied successfully.") :=
  (send_mutate_delete_status "Set" "IPHost" rdGood
      "200" "Configuration applied successfully."
      (Or.inr rfl) (by decide) (by decide) (by decide)).1 rfl

/-- C4: conditional-group selection in `set_iphost` is exhaustive and
exclusive: for each declared discriminator value, the conditional elements
appearing in the entity body are exactly the selected branch's elements. -/
theorem iphost_branch_exclusive (name ipaddress subnet hosttype ipfamily : String)
    (h : hosttype = "IP" ∨ hosttype = "Network" ∨ hosttype = "IPRange"
        ∨ hosttype = "IPList") :
    ((set_iphost_body name ipaddress subnet hosttype ipfamily).map XML.tag).filter
        (fun t => conditionalTags.contains t)
      = branchTags hosttype := by
  rcases h with h | h | h | h <;> subst h <;> rfl

/-- C4 witness at discriminator value "IP". -/
theorem iphost_branch_exclusive_witness :
    ((set_iphost_body "SYNCORP1" "5.5.5.5" "" "IP" "IPv4").map XML.tag).filter
        (fun t => conditionalTags.contains t)
      = branchTags "IP" :=
  iphost_branch_exclusive "SYNCORP1" "5.5.5.5" "" "IP" "IPv4" (Or.inl rfl)

/-- C5: the two concrete `set_iphost` scenarios: hostType "IP" yields exactly
Name, IPFamily (IPv4), HostType, IPAddress and no Subnet/StartIPAddress;
hostType "IPRange" yields StartIPAddress/EndIPAddress and omits IPAddress. -/
theorem set_iphost_scenarios :
    set_iphost_body "SYNCORP1" "5.5.5.5" "" "IP" "IPv4"
      = [XML.elem "Name" (some "SYNCORP1") [],
         XML.elem "IPFamily" (some "IPv4") [],
         XML.elem "HostType" (some "IP") [],
         XML.elem "IPAddress" (some "5.5.5.5") []]
    ∧ countTagDeepL "Subnet" (set_iphost_body "SYNCORP1" "5.5.5.5" "" "IP" "IPv4") = 0
    ∧ countTagDeepL "StartIPAddress"
        (set_iphost_body "SYNCORP1" "5.5.5.5" "" "IP" "IPv4") = 0
    ∧ set_iphost_body "SYNCORP1" "192.168.10.10" "192.168.10.253" "IPRange" "IPv4"
      = [XML.elem "Name" (some "SYNCORP1") [],
         XML.elem "IPFamily" (some "IPv4") [],
         XML.elem "HostType" (some "IPRange") [],
         XML.elem "StartIPAddress" (some "192.168.10.10") [],
         XML.elem "EndIPAddress" (some "192.168.10.253") []]
    ∧ countTagDeepL "IPAddress"
        (set_iphost_body "SYNCORP1" "192.168.10.10" "192.168.10.253" "IPRange" "IPv4")
      = 0 := by
  decide

/-- C6 counterexample: the library has no client-side required-field check
and no `MissingFieldError`: with `subnet` left at its empty-string default
for a Network host, serialization still succeeds — the body carries a
`Subnet` element with empty text — and the request document is built, to be
sent as-is. -/
theorem no_missing_field_check :
    set_iphost_body "SYNCORP2" "25.25.25.128" "" "Network" "IPv4"
      = [XML.elem "Name" (some "SYNCORP2") [],
         XML.elem "IPFamily" (some "IPv4") [],
         XML.elem "HostType" (some "Network") [],
         XML.elem "IPAddress" (some "25.25.25.128") [],
         XML.elem "Subnet" (some "") []]
    ∧ (set_iphost_call initState "SYNCORP2" "25.25.25.128" "" "Network" "IPv4").xml_request
      = some (XML.elem "Request" none
          [loginBlock "apiadmin" "pw",
           XML.elem "Set" none [XML.elem "IPHost" none
             [XML.elem "Name" (some "SYNCORP2") [],
              XML.elem "IPFamily" (some "IPv4") [],
              XML.elem "HostType" (some "Network") [],
              XML.elem "IPAddress" (some "25.25.25.128") [],
              XML.elem "Subnet" (some "") []]]]) := by
  decide

/-- C6 amended: serialization performs no required-field validation and is
total: a scalar left at its empty default is still emitted as exactly one
child element (with empty text), and a supplied scalar value is emitted as
exactly one child element with that text. -/
theorem scalar_serialization_total (name ipaddress subnet ipfamily : String) :
    (set_iphost_body name ipaddress subnet "Network" ipfamily).filter
        (fun x => x.tag == "Subnet")
      = [XML.elem "Subnet" (some subnet) []]
    ∧ (set_iphost_body name ipaddress subnet "Network" ipfamily).filter
        (fun x => x.tag == "Name")
      = [XML.elem "Name" (some name) []] := by
  constructor <;> rfl

/-- C7: `set_iphostgroup` emits exactly one `HostList` wrapper whose
children are one `Host` element per supplied host, in the caller's order;
the empty list yields the wrapper with zero children, not an omitted
wrapper. -/
theorem hostlist_serialization (name : String) (hosts : List String)
    (description ipfamily : String) :
    (set_iphostgroup_body name hosts description ipfamily).filter
        (fun x => x.tag == "HostList")
      = [XML.elem "HostList" none (hosts.map (fun h => XML.elem "Host" (some h) []))]
    ∧ (hosts.map (fun h => XML.elem "Host" (some h) [])).length = hosts.length
    ∧ (hosts.map (fun h => XML.elem "Host" (some h) [])).map XML.text = hosts.map some
    ∧ (hosts.map (fun h => XML.elem "Host" (some h) [])).map XML.tag
      = hosts.map (fun _ => "Host")
    ∧ (set_iphostgroup_body name [] description ipfamily).filter
        (fun x => x.tag == "HostList")
      = [XML.elem "HostList" none []] := by
  refine ⟨rfl, by simp, ?_, ?_, rfl⟩
  · simp [List.map_map, Function.comp, XML.text]
  · induction hosts with
    | nil => rfl
    | cons a as ih => simpa [XML.tag] using ih

/-- C8 amended: for a Get whose authentication succeeded, `send` returns
the entire parsed response mapping unmodified (the full envelope, within
which the entity payload sits under `Response.<entityType>`), with no
validation or transformation. -/
theorem send_get_returns_envelope (module : String) (rd : DVal)
    (hauth : getPath rd ["Response", "Login", "status"]
        = some (DVal.str "Authentication Successful")) :
    send_interpret "Get" module rd = Except.ok (SendResult.dict rd) := by
  unfold send_interpret
  rw [hauth]
  simp

/-- C8 amended witness at a concrete Get reply. -/
theorem send_get_returns_envelope_witness :
    send_interpret "Get" "IPHost" rdGood = Except.ok (SendResult.dict rdGood) :=
  send_get_returns_envelope "IPHost" rdGood (by decide)

/-- C8 counterexample: on a successful Get the value handed to the caller is
the whole parsed envelope, which is not the entity payload under
`Response.IPHost`. -/
theorem send_get_not_payload :
    send_interpret "Get" "IPHost" rdGood = Except.ok (SendResult.dict rdGood)
    ∧ getPath rdGood ["Response", "IPHost"] = some iphostPayload
    ∧ SendResult.dict rdGood ≠ SendResult.dict iphostPayload := by
  refine ⟨by decide, by decide, by decide⟩

/-- C9 counterexample: invoking `get_iphost` mutates the session object:
its `method` attribute differs after the call (it is created/overwritten by
`make_xml`). -/
theorem session_mutated :
    (get_iphost_call initState).method ≠ initState.method := by
  decide

/-- C9 amended: the request build step of every operation (`make_xml`, plus
the body appended by the calling method) leaves `username`, `password`,
`apiurl` and the authentication template `xml_auth` unchanged and embeds
the session's credential pair verbatim as the request's `Login` block; only
the scratch attributes `method`, `module` and `xml_request` are
overwritten. -/
theorem make_xml_preserves_credentials (s : SophosState) (method module : String)
    (body : List XML) (hauth : s.xml_auth = xmlAuth s.username s.password) :
    (make_xml_state s method module body).username = s.username
    ∧ (make_xml_state s method module body).password = s.password
    ∧ (make_xml_state s method module body).apiurl = s.apiurl
    ∧ (make_xml_state s method module body).xml_auth = s.xml_auth
    ∧ (make_xml_state s method module body).xml_request
      = some (XML.elem "Request" none
          [loginBlock s.username s.password,
           XML.elem method none [XML.elem module none body]]) := by
  refine ⟨rfl, rfl, rfl, rfl, ?_⟩
  simp [make_xml_state, make_xml_tree, hauth, xmlAuth, appendChildRoot]

/-- C9 amended witness at a concrete state and operation. -/
theorem make_xml_preserves_credentials_witness :
    (make_xml_state initState "Get" "IPHost" []).username = initState.username
    ∧ (make_xml_state initState "Get" "IPHost" []).password = initState.password
    ∧ (make_xml_state initState "Get" "IPHost" []).apiurl = initState.apiurl
    ∧ (make_xml_state initState "Get" "IPHost" []).xml_auth = initState.xml_auth
    ∧ (make_xml_state initState "Get" "IPHost" []).xml_request
      = some (XML.elem "Request" none
          [loginBlock initState.username initState.password,
           XML.elem "Get" none [XML.elem "IPHost" none []]]) :=
  make_xml_preserves_credentials initState "Get" "IPHost" [] rfl

/-- C10: `set_network_bridge` emits the IPv4 configuration block exactly
when `ipaddress`, `netmask` and `gw` are all non-empty; otherwise the block
is absent, while `BridgeMembers` and `MTU` are built either way. -/
theorem bridge_ipv4_block_iff (name : String) (interfaces : List (String × String))
    (ipaddress netmask gw routingonbridge ipassignment ipv4configuration mtu : String) :
    ((set_network_bridge_body name interfaces ipaddress netmask gw
        routingonbridge ipassignment ipv4configuration mtu).map XML.tag).filter
        (fun t => ipv4BlockTags.contains t)
      = (if ipaddress ≠ "" ∧ netmask ≠ "" ∧ gw ≠ "" then ipv4BlockTags else [])
    ∧ ((set_network_bridge_body name interfaces ipaddress netmask gw
        routingonbridge ipassignment ipv4configuration mtu).map XML.tag).count
        "BridgeMembers" = 1
    ∧ ((set_network_bridge_body name interfaces ipaddress netmask gw
        routingonbridge ipassignment ipv4configuration mtu).map XML.tag).count
        "MTU" = 1 := by
  by_cases h : ipaddress ≠ "" ∧ netmask ≠ "" ∧ gw ≠ ""
  · simp [set_network_bridge_body, h, ipv4BlockTags, XML.tag, List.count_cons]
  · simp [set_network_bridge_body, h, ipv4BlockTags, XML.tag, List.count_cons]

end Sophos
